import Mathlib

/-!
Verification development for `backend/llm.py` of the screenshot-to-code
repository: a shallow embedding of the model registry
(`Llm`, `convert_frontend_str_to_llm`), the OpenAI-compatible streaming
strategy (`stream_openai_response`), the Claude-native normalizer
(`stream_claude_response`, normalization phase), and the two-pass
refinement loop (`stream_claude_response_native`), together with theorems
settling the specification claims.

Convention for frame effects: each embedded function that receives the
caller's message list returns, alongside its result, the caller-visible
value of that list after the call.  Python in-place operations on the
argument (`messages += [...]`) show up in that component; `copy.deepcopy`
makes subsequent writes invisible to it.
-/

namespace LlmPy

/-- The `Llm` enum of `backend/llm.py`: the supported model identifiers. -/
inductive Llm where
  | GPT_4_VISION
  | GPT_4_TURBO_2024_04_09
  | GPT_4O_2024_05_13
  | GPT_4O_2024_08_06
  | GPT_4O_2024_11_20
  | CLAUDE_3_SONNET
  | CLAUDE_3_OPUS
  | CLAUDE_3_HAIKU
  | CLAUDE_3_5_SONNET_2024_06_20
  | CLAUDE_3_5_SONNET_2024_10_22
  | GEMINI_2_0_FLASH_EXP
  | O1_2024_12_17
deriving DecidableEq, Repr

/-- The string value of each enum member (the canonical model identifier). -/
def Llm.value : Llm → String
  | .GPT_4_VISION => "gpt-4-vision-preview"
  | .GPT_4_TURBO_2024_04_09 => "gpt-4-turbo-2024-04-09"
  | .GPT_4O_2024_05_13 => "gpt-4o-2024-05-13"
  | .GPT_4O_2024_08_06 => "gpt-4o-2024-08-06"
  | .GPT_4O_2024_11_20 => "gpt-4o-2024-11-20"
  | .CLAUDE_3_SONNET => "claude-3-sonnet-20240229"
  | .CLAUDE_3_OPUS => "claude-3-opus-20240229"
  | .CLAUDE_3_HAIKU => "claude-3-haiku-20240307"
  | .CLAUDE_3_5_SONNET_2024_06_20 => "claude-3-5-sonnet-20240620"
  | .CLAUDE_3_5_SONNET_2024_10_22 => "claude-3-5-sonnet-20241022"
  | .GEMINI_2_0_FLASH_EXP => "gemini-2.0-flash-exp"
  | .O1_2024_12_17 => "o1-2024-12-17"

/-- The enum members in declaration order. -/
def Llm.members : List Llm :=
  [.GPT_4_VISION, .GPT_4_TURBO_2024_04_09, .GPT_4O_2024_05_13,
   .GPT_4O_2024_08_06, .GPT_4O_2024_11_20, .CLAUDE_3_SONNET,
   .CLAUDE_3_OPUS, .CLAUDE_3_HAIKU, .CLAUDE_3_5_SONNET_2024_06_20,
   .CLAUDE_3_5_SONNET_2024_10_22, .GEMINI_2_0_FLASH_EXP, .O1_2024_12_17]

/-- Python `Llm(s)`: enum lookup by value, scanning members in declaration
order; `none` models the `ValueError` raised when no member matches. -/
def llmOfValue (s : String) : Option Llm :=
  Llm.members.find? (fun m => m.value = s)

/-- `convert_frontend_str_to_llm` (llm.py lines 31-37): two legacy
short-name aliases, then enum lookup by value; `none` models the raised
error for a garbage string. -/
def convert_frontend_str_to_llm (frontend_str : String) : Option Llm :=
  if frontend_str = "gpt_4_vision" then some Llm.GPT_4_VISION
  else if frontend_str = "claude_3_sonnet" then some Llm.CLAUDE_3_SONNET
  else llmOfValue frontend_str

/-- The parameters dict built by `stream_openai_response`
(llm.py lines 50-67).  `temperature` is the literal constant `0.0`,
represented exactly as a rational. -/
structure OpenAIParams where
  model : String
  timeout : Nat
  temperature : ℚ
  max_tokens : Option Nat
deriving DecidableEq, Repr

/-- Parameter construction of `stream_openai_response` (llm.py lines
50-67): base params with fixed timeout 600 and temperature 0.0, then
`max_tokens := 4096` for the three GPT-4 vision/turbo/4o-05-13 models and
`max_tokens := 16384` for GPT-4o-2024-11-20. -/
def openaiParams (model : Llm) : OpenAIParams :=
  let params : OpenAIParams :=
    { model := model.value, timeout := 600, temperature := 0, max_tokens := none }
  let params :=
    if model = Llm.GPT_4_VISION ∨ model = Llm.GPT_4_TURBO_2024_04_09
        ∨ model = Llm.GPT_4O_2024_05_13 then
      { params with max_tokens := some 4096 }
    else params
  if model = Llm.GPT_4O_2024_11_20 then
    { params with max_tokens := some 16384 }
  else params

/-! ## OpenAI-compatible streaming strategy (llm.py lines 69-85) -/

/-- The `delta` field of a streamed chunk choice: an optional text field. -/
structure Delta where
  content : Option String
deriving DecidableEq, Repr

/-- One choice inside a streamed chunk; `delta` may be absent (`None`). -/
structure Choice where
  delta : Option Delta
deriving DecidableEq, Repr

/-- One `ChatCompletionChunk` received from the stream. -/
structure Chunk where
  choices : List Choice
deriving DecidableEq, Repr

/-- The guard of llm.py lines 73-78 under Python truthiness: the chunk
contributes its delta text exactly when `choices` is non-empty, the first
choice's `delta` is not `None`, and `delta.content` is neither `None` nor
the empty string (an empty string is falsy in Python). -/
def chunkText (c : Chunk) : Option String :=
  match c.choices with
  | [] => none
  | choice :: _ =>
    match choice.delta with
    | none => none
    | some d =>
      match d.content with
      | none => none
      | some s => if s = "" then none else some s

/-- The chunk-consumption loop of `stream_openai_response` (llm.py lines
70-82), carrying the accumulator `full_response` and the log of sink
invocations (the arguments of `await callback(content)`, in order). -/
def openaiStreamLoop (full_response : String) (sinkCalls : List String) :
    List Chunk → String × List String
  | [] => (full_response, sinkCalls)
  | c :: rest =>
    match chunkText c with
    | none => openaiStreamLoop full_response sinkCalls rest
    | some content =>
        openaiStreamLoop (full_response ++ content) (sinkCalls ++ [content]) rest

/-- `stream_openai_response` (llm.py lines 40-85), restricted to its
observable stream behavior: given the arriving chunks, returns the final
`full_response` string and the fragments passed to the sink, in order. -/
def stream_openai_response (chunks : List Chunk) : String × List String :=
  openaiStreamLoop ("") [] chunks

/-! ## Claude-native normalizer (llm.py lines 89-152, normalization phase) -/

/-- A content part of an OpenAI-shaped message: a dict tagged by its
`type` key.  `imageUrl u` stands for `{type: image_url, image_url: {url: u}}`;
`image mt d` for the rewritten `{type: image, source: {type: base64,
media_type: mt, data: d}}`; `other t` for any other tag `t` (opaque
payload). -/
inductive ContentPart where
  | text : String → ContentPart
  | imageUrl : String → ContentPart
  | image : String → String → ContentPart
  | other : String → ContentPart
deriving DecidableEq, Repr

/-- The `content` value of a message: either a plain (non-list) value,
which the normalizer skips via `continue`, or a list of content parts. -/
inductive Content where
  | str : String → Content
  | parts : List ContentPart → Content
deriving DecidableEq, Repr

/-- An OpenAI-shaped message (`role` key plus `content` key). -/
structure Message where
  role : String
  content : Content
deriving DecidableEq, Repr

/-- The inner rewriting of llm.py lines 113-132: an `image_url` part is
replaced by an `image` part whose base64 source is produced by
`process_image` (an external collaborator, passed in as `processImage`,
returning `(media_type, base64_data)`); every other part is untouched. -/
def rewritePart (processImage : String → String × String) :
    ContentPart → ContentPart
  | .imageUrl u => ContentPart.image (processImage u).1 (processImage u).2
  | p => p

/-- The per-message loop of llm.py lines 109-132: non-list content is
skipped (`continue`); list content has each part rewritten. -/
def rewriteMessage (processImage : String → String × String) :
    Message → Message
  | ⟨role, .str s⟩ => ⟨role, .str s⟩
  | ⟨role, .parts ps⟩ => ⟨role, .parts (ps.map (rewritePart processImage))⟩

/-- The only pre-flight failure of the normalization phase: indexing
`cloned_messages[0]` on an empty list (`IndexError`). -/
inductive NormErr where
  | indexError
deriving DecidableEq, Repr

/-- The payload handed to the Claude transport: the `system` field
(content of the first message, used verbatim regardless of role) and the
translated `claude_messages` list. -/
structure ClaudePayload where
  system_prompt : Content
  claude_messages : List Message
deriving DecidableEq, Repr

/-- Result of the normalization phase, together with the caller-visible
value of the `messages` argument after the call. -/
structure NormOut where
  result : Except NormErr ClaudePayload
  callerMessages : List Message
deriving Repr

/-- Normalization phase of `stream_claude_response` (llm.py lines
96-132): `cloned_messages = copy.deepcopy(messages)` makes every
subsequent write target the copy, so the caller's list is returned
unchanged; `messages[0]`'s content becomes the system prompt with no role
check; the remaining messages get their image parts rewritten. -/
def stream_claude_response_normalize (processImage : String → String × String)
    (messages : List Message) : NormOut :=
  let cloned_messages := messages
  match cloned_messages with
  | [] => ⟨.error NormErr.indexError, messages⟩
  | first :: rest =>
      ⟨.ok ⟨first.content, rest.map (rewriteMessage processImage)⟩, messages⟩

/-! ## Two-pass refinement loop (llm.py lines 155-241) -/

/-- A message of the native path: the entries the loop appends are plain
role/content string dicts, and the caller's incoming entries are modelled
the same way. -/
structure NMsg where
  role : String
  content : String
deriving DecidableEq, Repr

/-- The priming text `prefix = "<thinking>"` of llm.py line 174. -/
def primingText : String := "<thinking>"

/-- The fixed refinement instruction appended after each pass
(llm.py lines 222-225). -/
def refineInstruction : String :=
  "You\x27ve done a good job with a first draft. Improve this further based on the original instructions so that the app is fully functional and looks like the original video of the app we\x27re trying to replicate."

/-- Failures of the native path.  `streamNoFinalMessage` models the
stream/SDK error raised inside a pass when the provider never returns a
final message (`get_final_message` cannot resolve); `noResponseProduced`
models the `raise Exception("No HTML response found in AI response")` at
llm.py line 239. -/
inductive NativeErr where
  | streamNoFinalMessage
  | noResponseProduced
deriving DecidableEq, Repr

/-- Result of a completed native call: the returned artifact text, the
caller-visible value of the `messages` list after the call (the loop
appends to it in place via `messages += [...]`), and the conversation
sent on each transport invocation, in order. -/
structure NativeResult where
  text : String
  callerMessages : List NMsg
  sent : List (List NMsg)
deriving DecidableEq, Repr

/-- The `while current_pass_num <= max_passes` loop of llm.py lines
181-230, recursing on the number of remaining iterations.  Each iteration
builds `messages_to_send` (seeding the priming turn only when
`includeThinking`), performs one transport invocation whose final message
is `passResult p` (`none` aborting the call as the stream's own error),
stores the response, and appends the assistant turn — unconditionally
prefixed with the priming text (line 221) — plus the fixed user
instruction to `messages`. -/
def nativeLoop (passResult : Nat → Option String) (includeThinking : Bool) :
    Nat → Nat → List NMsg → Option String → List (List NMsg) →
    Except NativeErr (Option String × List NMsg × List (List NMsg))
  | 0, _, messages, response, sent => .ok (response, messages, sent)
  | remaining + 1, p, messages, _, sent =>
    let messages_to_send :=
      if includeThinking then messages ++ [⟨"assistant", primingText⟩]
      else messages
    match passResult p with
    | none => .error NativeErr.streamNoFinalMessage
    | some responseText =>
        nativeLoop passResult includeThinking remaining (p + 1)
          (messages ++
            [⟨"assistant", primingText ++ responseText⟩,
             ⟨"user", refineInstruction⟩])
          (some responseText) (sent ++ [messages_to_send])

/-- `stream_claude_response_native` (llm.py lines 155-241):
`current_pass_num = 1`, `max_passes = 2`, `response = None`; run the loop;
afterwards `if not response` raises the no-response error, otherwise the
final response's text is returned.  `passResult p` is the final message
produced by the transport on pass `p`. -/
def stream_claude_response_native (includeThinking : Bool)
    (messages : List NMsg) (passResult : Nat → Option String) :
    Except NativeErr NativeResult :=
  let max_passes := 2
  let current_pass_num := 1
  match nativeLoop passResult includeThinking
      (max_passes + 1 - current_pass_num) current_pass_num messages none [] with
  | .error e => .error e
  | .ok (none, _, _) => .error NativeErr.noResponseProduced
  | .ok (some responseText, finalMessages, sent) =>
      .ok ⟨responseText, finalMessages, sent⟩

/-! ## Auxiliary definitions used by the theorems -/

/-- Concatenation of a list of strings in order. -/
def concatAll : List String → String
  | [] => ""
  | s :: rest => s ++ concatAll rest

/-- Whether a content part is still in the `image_url` shape. -/
def ContentPart.isImageUrl : ContentPart → Bool
  | .imageUrl _ => true
  | _ => false

/-- Whether any `image_url`-shaped part occurs in a content value. -/
def Content.hasImageUrl : Content → Bool
  | .str _ => false
  | .parts ps => ps.any (fun p => p.isImageUrl)

/-- Modelled from the spec: the token-ceiling policy stated by cases —
a conservative 4096 ceiling for the small/legacy models, 16384 for the
newer high-capacity GPT-4o variant, and no explicit ceiling otherwise.
Compared against the `openaiParams` built from the source. -/
def openaiMaxTokensSpec : Llm → Option Nat
  | .GPT_4_VISION => some 4096
  | .GPT_4_TURBO_2024_04_09 => some 4096
  | .GPT_4O_2024_05_13 => some 4096
  | .GPT_4O_2024_11_20 => some 16384
  | _ => none

/-! ## Helper lemmas -/

/-- Enum lookup by value finds exactly the member whose value is `s`. -/
theorem llmOfValue_eq_some (s : String) (m : Llm) :
    llmOfValue s = some m ↔ m.value = s := by
  constructor
  · intro h
    have hp := List.find?_some h
    exact of_decide_eq_true hp
  · intro h
    subst h
    cases m <;> rfl

/-- No enum member's canonical value equals the alias `"gpt_4_vision"`. -/
theorem llm_value_ne_alias_vision (m : Llm) : m.value ≠ "gpt_4_vision" := by
  cases m <;> decide

/-- No enum member's canonical value equals the alias `"claude_3_sonnet"`. -/
theorem llm_value_ne_alias_sonnet (m : Llm) : m.value ≠ "claude_3_sonnet" := by
  cases m <;> decide

/-- Claim C5: model resolution returns the model whose canonical
identifier literally equals the input string, or the unique canonical
model of one of the two legacy short-name aliases, and returns nothing
(the raised unknown-model error) for every other string; the embedding is
a pure function with no side effects and no network access. -/
theorem convert_frontend_resolution (s : String) (m : Llm) :
    convert_frontend_str_to_llm s = some m ↔
      ((s = "gpt_4_vision" ∧ m = Llm.GPT_4_VISION) ∨
       (s = "claude_3_sonnet" ∧ m = Llm.CLAUDE_3_SONNET) ∨
       m.value = s) := by
  unfold convert_frontend_str_to_llm
  by_cases h1 : s = "gpt_4_vision"
  · subst h1
    simp [llm_value_ne_alias_vision m]
    exact eq_comm
  · rw [if_neg h1]
    by_cases h2 : s = "claude_3_sonnet"
    · subst h2
      simp [llm_value_ne_alias_sonnet m, h1]
      exact eq_comm
    · rw [if_neg h2]
      rw [llmOfValue_eq_some]
      simp [h1, h2]


/-- Both passes producing final messages: the whole run, computed.
Shared helper for the native-path theorems. -/
theorem native_run_ok (msgs : List NMsg) (it : Bool) (pr : Nat → Option String)
    (t1 t2 : String) (h1 : pr 1 = some t1) (h2 : pr 2 = some t2) :
    stream_claude_response_native it msgs pr =
      Except.ok
        ⟨t2,
         msgs ++
           [⟨"assistant", primingText ++ t1⟩, ⟨"user", refineInstruction⟩,
            ⟨"assistant", primingText ++ t2⟩, ⟨"user", refineInstruction⟩],
         [msgs ++ cond it [⟨"assistant", primingText⟩] [],
          (msgs ++
            [⟨"assistant", primingText ++ t1⟩, ⟨"user", refineInstruction⟩]) ++
            cond it [⟨"assistant", primingText⟩] []]⟩ := by
  cases it <;>
    simp [stream_claude_response_native, nativeLoop, h1, h2]

/-- Claim C9: for every model, the OpenAI-compatible strategy fixes the
timeout at 600 seconds and the temperature at 0.0, and includes
`max_tokens` with value 4096 exactly for GPT-4 Vision, GPT-4 Turbo
2024-04-09 and GPT-4o 2024-05-13, with value 16384 exactly for GPT-4o
2024-11-20, and omits it for every other model (the policy stated by
cases in `openaiMaxTokensSpec`). -/
theorem openai_params_policy (m : Llm) :
    openaiParams m =
      { model := m.value, timeout := 600, temperature := 0,
        max_tokens := openaiMaxTokensSpec m } := by
  cases m <;> rfl

/-- The chunk loop appends exactly the non-empty delta texts to the
accumulator and logs exactly those texts as sink invocations, in order. -/
theorem openaiStreamLoop_spec (cs : List Chunk) (acc : String) (log : List String) :
    openaiStreamLoop acc log cs =
      (acc ++ concatAll (cs.filterMap chunkText), log ++ cs.filterMap chunkText) := by
  induction cs generalizing acc log with
  | nil => simp [openaiStreamLoop, concatAll]
  | cons c rest ih =>
    cases h : chunkText c with
    | none => simp [openaiStreamLoop, h, ih]
    | some s =>
        simp [openaiStreamLoop, h, ih, concatAll, String.append_assoc]

/-- Claim C8: on the OpenAI-compatible strategy the sink is invoked
exactly once per chunk carrying a non-empty delta text, in arrival order
(the invocation log is `chunks.filterMap chunkText`), chunks with an
absent or empty delta text contribute nothing, and the returned string is
the concatenation, in that order, of exactly the fragments passed to the
sink. -/
theorem openai_stream_sink_concat (chunks : List Chunk) :
    stream_openai_response chunks =
      (concatAll (chunks.filterMap chunkText), chunks.filterMap chunkText) := by
  have h := openaiStreamLoop_spec chunks ("") []
  simpa [stream_openai_response] using h

/-- Claim C1 (amended): normalizing for the Claude-native target fails
before any network call exactly when the conversation is empty (the
`IndexError` from reading the first message); the first message's role is
never checked, so every non-empty conversation — whether or not its first
message has role `system` — normalizes without error. -/
theorem claude_normalize_error_iff_empty
    (processImage : String → String × String) (msgs : List Message) :
    (stream_claude_response_normalize processImage msgs).result =
        Except.error NormErr.indexError ↔ msgs = [] := by
  cases msgs <;> simp [stream_claude_response_normalize]

/-- Witness for claim C1: the empty conversation does fail with the
index error. -/
theorem claude_normalize_error_iff_empty_witness :
    (stream_claude_response_normalize (fun u => (u, u)) []).result =
      Except.error NormErr.indexError :=
  (claude_normalize_error_iff_empty (fun u => (u, u)) []).mpr rfl

/-- Counterexample to claim C1 as stated: a conversation whose first
message has role `user` (not `system`) normalizes successfully — no error
of any kind is raised, contradicting the claimed failure. -/
theorem claude_normalize_role_unchecked :
    (stream_claude_response_normalize (fun u => (u, u))
        [⟨"user", Content.str ("hi")⟩]).result =
      Except.ok ⟨Content.str ("hi"), []⟩ ∧ ("user" : String) ≠ "system" :=
  ⟨rfl, by decide⟩

/-- Claim C6: Claude-native normalization, including the image rewriting,
never mutates the caller's conversation — the caller-visible value of the
`messages` argument after the call equals its value before the call, for
every input; the deep copy at llm.py line 105 directs every write to the
clone. -/
theorem claude_normalize_preserves_caller_messages
    (processImage : String → String × String) (msgs : List Message) :
    (stream_claude_response_normalize processImage msgs).callerMessages = msgs := by
  cases msgs <;> rfl

/-- The rewriting never leaves a part in the `image_url` shape. -/
theorem rewritePart_not_imageUrl (processImage : String → String × String)
    (p : ContentPart) : (rewritePart processImage p).isImageUrl = false := by
  cases p <;> rfl

/-- No `image_url`-shaped part survives the per-message rewriting. -/
theorem rewriteMessage_no_imageUrl (processImage : String → String × String)
    (m : Message) :
    Content.hasImageUrl (rewriteMessage processImage m).content = false := by
  obtain ⟨role, content⟩ := m
  cases content with
  | str s => rfl
  | parts ps =>
      simp [rewriteMessage, Content.hasImageUrl, List.any_map, Function.comp,
        rewritePart_not_imageUrl]

/-- Claim C7: in every payload produced by Claude-native normalization no
`image_url`-shaped field remains anywhere; every `image_url` part is
rewritten into the base64 `image` structure carrying the media type and
data produced by the image collaborator; and every part that is not in
the `image_url` shape passes through unchanged. -/
theorem claude_normalize_images_base64
    (processImage : String → String × String) (msgs : List Message)
    (payload : ClaudePayload)
    (h : (stream_claude_response_normalize processImage msgs).result =
      Except.ok payload) :
    (∀ m ∈ payload.claude_messages, Content.hasImageUrl m.content = false) ∧
    (∀ u, rewritePart processImage (ContentPart.imageUrl u) =
      ContentPart.image (processImage u).1 (processImage u).2) ∧
    (∀ p : ContentPart, p.isImageUrl = false → rewritePart processImage p = p) := by
  refine ⟨?_, fun u => rfl, ?_⟩
  · intro m hm
    cases msgs with
    | nil => simp [stream_claude_response_normalize] at h
    | cons first rest =>
        simp [stream_claude_response_normalize] at h
        rw [← h] at hm
        simp only [ClaudePayload.mk.injEq] at hm
        rcases List.mem_map.mp hm with ⟨m0, _, rfl⟩
        exact rewriteMessage_no_imageUrl processImage m0
  · intro p hp
    cases p with
    | imageUrl u => simp [ContentPart.isImageUrl] at hp
    | text s => rfl
    | image a b => rfl
    | other t => rfl

/-- Claim C2 (amended): after pass 1 the response text is appended as an
assistant turn that is always prefixed with the priming text — whether or
not the priming prefix was used for the pass — followed by the fixed user
instruction turn; the conversation sent on pass 2 therefore has length
equal to the original length plus 2, plus the optional seeded assistant
prefix turn. -/
theorem native_pass2_conversation_shape (msgs : List NMsg) (it : Bool)
    (pr : Nat → Option String) (t1 t2 : String)
    (h1 : pr 1 = some t1) (h2 : pr 2 = some t2) :
    (stream_claude_response_native it msgs pr).map (fun r => r.sent.getD 1 []) =
      Except.ok
        ((msgs ++
          [⟨"assistant", primingText ++ t1⟩, ⟨"user", refineInstruction⟩]) ++
          cond it [⟨"assistant", primingText⟩] []) ∧
    (stream_claude_response_native it msgs pr).map
        (fun r => (r.sent.getD 1 []).length) =
      Except.ok (msgs.length + 2 + cond it 1 0) := by
  rw [native_run_ok msgs it pr t1 t2 h1 h2]
  cases it <;> simp [Except.map, Nat.add_assoc]

/-- Witness for claim C2: a concrete two-pass run without the priming
prefix. -/
theorem native_pass2_conversation_shape_witness :
    (stream_claude_response_native false []
        (fun p => if p = 1 then some ("A") else some ("B"))).map
        (fun r => r.sent.getD 1 []) =
      Except.ok
        ((([] : List NMsg) ++
          [⟨"assistant", primingText ++ "A"⟩, ⟨"user", refineInstruction⟩]) ++
          cond false [⟨"assistant", primingText⟩] []) ∧
    (stream_claude_response_native false []
        (fun p => if p = 1 then some ("A") else some ("B"))).map
        (fun r => (r.sent.getD 1 []).length) =
      Except.ok (([] : List NMsg).length + 2 + cond false 1 0) :=
  native_pass2_conversation_shape [] false
    (fun p => if p = 1 then some ("A") else some ("B")) "A" "B" rfl rfl

/-- Counterexample to claim C2 as stated: with the priming prefix unused
(`include_thinking = False`), the assistant turn appended after pass 1
still carries the priming text — its content is the priming text followed
by the pass-1 response, not the response alone. -/
theorem native_priming_unconditional :
    stream_claude_response_native false []
        (fun p => if p = 1 then some ("A") else some ("B")) =
      Except.ok
        ⟨"B",
         [⟨"assistant", "<thinking>A"⟩, ⟨"user", refineInstruction⟩,
          ⟨"assistant", "<thinking>B"⟩, ⟨"user", refineInstruction⟩],
         [[], [⟨"assistant", "<thinking>A"⟩, ⟨"user", refineInstruction⟩]]⟩ ∧
    ("<thinking>A" : String) ≠ "A" := by
  constructor
  · rfl
  · decide

/-- Claim C3: whenever both passes complete, the refinement loop performs
exactly two transport invocations (the fixed pass count) and returns the
final text of pass 2; pass-1 output is kept only as conversational
context. -/
theorem native_two_invocations_returns_pass2 (msgs : List NMsg) (it : Bool)
    (pr : Nat → Option String) (t1 t2 : String)
    (h1 : pr 1 = some t1) (h2 : pr 2 = some t2) :
    (stream_claude_response_native it msgs pr).map
        (fun r => (r.text, r.sent.length)) = Except.ok (t2, 2) := by
  rw [native_run_ok msgs it pr t1 t2 h1 h2]
  rfl

/-- Witness for claim C3: a concrete two-pass run with the priming
prefix. -/
theorem native_two_invocations_returns_pass2_witness :
    (stream_claude_response_native true [⟨"user", "brief"⟩]
        (fun p => if p = 1 then some ("A") else some ("B"))).map
        (fun r => (r.text, r.sent.length)) = Except.ok (("B"), 2) :=
  native_two_invocations_returns_pass2 [⟨"user", "brief"⟩] true
    (fun p => if p = 1 then some ("A") else some ("B")) "A" "B" rfl rfl

/-- Claim C4 (amended): the refinement loop never fails with the
no-response error — a pass that produces no final response object aborts
the call with the stream's own error before the final no-response check
can fire (that check could only trigger if no pass body ever ran, which
the fixed pass count of 2 rules out); whenever both passes produce final
response objects, the loop returns normally. -/
theorem native_never_no_response_error (it : Bool) (msgs : List NMsg)
    (pr : Nat → Option String) :
    stream_claude_response_native it msgs pr ≠
        Except.error NativeErr.noResponseProduced ∧
    ((pr 1).isSome = true → (pr 2).isSome = true →
      ∃ r, stream_claude_response_native it msgs pr = Except.ok r) := by
  cases h1 : pr 1 with
  | none =>
      constructor
      · cases it <;> simp [stream_claude_response_native, nativeLoop, h1]
      · intro hs
        simp at hs
  | some t1 =>
      cases h2 : pr 2 with
      | none =>
          constructor
          · cases it <;> simp [stream_claude_response_native, nativeLoop, h1, h2]
          · intro _ hs
            simp at hs
      | some t2 =>
          constructor
          · rw [native_run_ok msgs it pr t1 t2 h1 h2]
            simp
          · intro _ _
            exact ⟨_, native_run_ok msgs it pr t1 t2 h1 h2⟩

/-- Witness for claim C4: a run whose passes both produce responses
returns normally. -/
theorem native_never_no_response_error_witness :
    ∃ r, stream_claude_response_native false []
      (fun _ => some ("x")) = Except.ok r :=
  (native_never_no_response_error false [] (fun _ => some ("x"))).2 rfl rfl

/-- Counterexample to claim C4 as stated: when no response object is ever
produced across both passes, the call fails with the stream's own error,
not with the no-response error the claim requires. -/
theorem native_no_response_counterexample :
    stream_claude_response_native false [] (fun _ => (none : Option String)) =
      Except.error NativeErr.streamNoFinalMessage ∧
    NativeErr.streamNoFinalMessage ≠ NativeErr.noResponseProduced := by
  constructor
  · rfl
  · decide

/-- Claim C10: after a call in which both passes complete, the
caller-visible `messages` list (mutated in place by `messages += [...]`)
has exactly four entries appended — an assistant turn and a user
instruction turn per pass — and the conversations actually sent to the
provider are only the original list (plus the optional seed) and the
original list extended by the first pair (plus the optional seed), so the
pair appended after the final pass is never sent to any provider. -/
theorem native_appends_four_to_caller (msgs : List NMsg) (it : Bool)
    (pr : Nat → Option String) (t1 t2 : String)
    (h1 : pr 1 = some t1) (h2 : pr 2 = some t2) :
    (stream_claude_response_native it msgs pr).map
        (fun r => (r.callerMessages, r.sent)) =
      Except.ok
        (msgs ++
          [⟨"assistant", primingText ++ t1⟩, ⟨"user", refineInstruction⟩,
           ⟨"assistant", primingText ++ t2⟩, ⟨"user", refineInstruction⟩],
         [msgs ++ cond it [⟨"assistant", primingText⟩] [],
          (msgs ++
            [⟨"assistant", primingText ++ t1⟩, ⟨"user", refineInstruction⟩]) ++
            cond it [⟨"assistant", primingText⟩] []]) := by
  rw [native_run_ok msgs it pr t1 t2 h1 h2]
  rfl

/-- Witness for claim C10: a concrete two-pass run showing the four
appended entries and the two sent conversations. -/
theorem native_appends_four_to_caller_witness :
    (stream_claude_response_native false [⟨"user", "brief"⟩]
        (fun p => if p = 1 then some ("A") else some ("B"))).map
        (fun r => (r.callerMessages, r.sent)) =
      Except.ok
        ([⟨"user", "brief"⟩] ++
          [⟨"assistant", primingText ++ "A"⟩, ⟨"user", refineInstruction⟩,
           ⟨"assistant", primingText ++ "B"⟩, ⟨"user", refineInstruction⟩],
         [[⟨"user", "brief"⟩] ++ cond false [⟨"assistant", primingText⟩] [],
          ([⟨"user", "brief"⟩] ++
            [⟨"assistant", primingText ++ "A"⟩, ⟨"user", refineInstruction⟩]) ++
            cond false [⟨"assistant", primingText⟩] []]) :=
  native_appends_four_to_caller [⟨"user", "brief"⟩] false
    (fun p => if p = 1 then some ("A") else some ("B")) "A" "B" rfl rfl

/-- Witness for claim C5: a canonical identifier resolves to its model. -/
theorem convert_frontend_resolution_witness :
    convert_frontend_str_to_llm ("claude-3-opus-20240229") =
      some Llm.CLAUDE_3_OPUS :=
  (convert_frontend_resolution ("claude-3-opus-20240229")
    Llm.CLAUDE_3_OPUS).mpr (Or.inr (Or.inr (by decide)))

/-- Witness for claim C7: a concrete conversation with one image part. -/
theorem claude_normalize_images_base64_witness :
    (∀ m ∈ (ClaudePayload.mk (Content.str ("s"))
        [⟨"user", Content.parts [ContentPart.image ("d") ("d")]⟩]).claude_messages,
      Content.hasImageUrl m.content = false) ∧
    (∀ u, rewritePart (fun v => (v, v)) (ContentPart.imageUrl u) =
      ContentPart.image ((fun v => (v, v)) u).1 ((fun v => (v, v)) u).2) ∧
    (∀ p : ContentPart, p.isImageUrl = false →
      rewritePart (fun v => (v, v)) p = p) :=
  claude_normalize_images_base64 (fun v => (v, v))
    [⟨"system", Content.str ("s")⟩,
     ⟨"user", Content.parts [ContentPart.imageUrl ("d")]⟩]
    (ClaudePayload.mk (Content.str ("s"))
      [⟨"user", Content.parts [ContentPart.image ("d") ("d")]⟩]) rfl

end LlmPy
